import Mathlib

/-!
Shallow embedding of the scrappingInmobiliaria content acquisition and
normalisation code (src/services/web-scraper.ts and the fetch variants in
src/services/scraper.ts), together with theorems settling the
specification claims about it.  Strings are modelled by Lean strings,
DOM trees (the structure cheerio builds from markup) by an explicit
mutual inductive, and the external world (HTTP responses, the rendered
page, the browser session) by oracle parameters whose consumption is
recorded in event traces.
-/

/-- Whitespace class modelling the JavaScript regex class for whitespace
on the ASCII inputs exercised here. -/
def isWsChar (c : Char) : Bool :=
  c = ' ' || c = '\t' || c = '\n' || c = '\r' || c = Char.ofNat 11 || c = Char.ofNat 12

/-- Drops whitespace from both ends of a character list. -/
def trimCharList (l : List Char) : List Char :=
  ((l.dropWhile isWsChar).reverse.dropWhile isWsChar).reverse

/-- Models the JavaScript trim method on strings. -/
def jsTrim (s : String) : String := ⟨trimCharList s.data⟩

/-- Collapses every whitespace run to a single space, modelling the global
replacement of whitespace runs performed by the source. -/
def squeezeWs : List Char → List Char
  | [] => []
  | [c] => [if isWsChar c then ' ' else c]
  | c :: d :: rest =>
    if isWsChar c && isWsChar d then squeezeWs (d :: rest)
    else (if isWsChar c then ' ' else c) :: squeezeWs (d :: rest)

/-- Models the whitespace-collapse-then-trim normalisation of the source
(trimming first and collapsing second yields the same string). -/
def collapseWs (s : String) : String := ⟨squeezeWs (trimCharList s.data)⟩

/-- Substring test on character lists. -/
def containsCharList : List Char → List Char → Bool
  | [], pat => pat.isEmpty
  | c :: rest, pat => pat.isPrefixOf (c :: rest) || containsCharList rest pat

/-- Models the JavaScript includes method on strings. -/
def containsStr (s pat : String) : Bool := containsCharList s.data pat.data

/-- Lowercases a string (ASCII is enough for the patterns used). -/
def lowerStr (s : String) : String := ⟨s.data.map Char.toLower⟩

/-- Case-insensitive substring test, modelling the i-flagged regexes of
the source, whose patterns are all alternations of plain literals. -/
def containsIC (s pat : String) : Bool := containsStr (lowerStr s) (lowerStr pat)

/-- Prefix test on strings. -/
def startsWithStr (s pat : String) : Bool := pat.data.isPrefixOf s.data

/-- Numeric value of a digit list. -/
def digitsToNat (l : List Char) : Nat :=
  l.foldl (fun acc c => acc * 10 + (c.toNat - 48)) 0

/-- Models the JavaScript Number coercion of a string for the attribute
shapes exercised here: whitespace-only strings give 0, unsigned decimal
literals give their value, anything else is NaN (none). -/
def jsNumber? (s : String) : Option Nat :=
  let t := trimCharList s.data
  if t.isEmpty then some 0
  else if t.all Char.isDigit then some (digitsToNat t)
  else none

/-- Models the source idiom coercing Number(attr) with a falsy fallback to
undefined: both NaN and 0 collapse to none. -/
def numAttr : Option String → Option Nat
  | none => none
  | some s =>
    match jsNumber? s with
    | some (n + 1) => some (n + 1)
    | _ => none

/-- Splits a character list on a separator character. -/
def splitOnSep (sep : Char) : List Char → List (List Char)
  | [] => [[]]
  | c :: rest =>
    let r := splitOnSep sep rest
    if c = sep then [] :: r
    else
      match r with
      | [] => [[c]]
      | seg :: segs => (c :: seg) :: segs

/-- Models the pixel-extraction regex of cssPx applied to one semicolon
delimited style segment: optional whitespace, the property name, optional
whitespace, a colon, optional whitespace, digits, then the letters px. -/
def cssPxSeg (prop : List Char) (seg : List Char) : Option Nat :=
  let seg := (seg.map Char.toLower).dropWhile isWsChar
  if prop.isPrefixOf seg then
    match (seg.drop prop.length).dropWhile isWsChar with
    | ':' :: r2 =>
      let r3 := r2.dropWhile isWsChar
      let ds := r3.takeWhile Char.isDigit
      if ds.isEmpty then none
      else if ['p', 'x'].isPrefixOf (r3.drop ds.length) then some (digitsToNat ds)
      else none
    | _ => none
  else none

/-- Models the source cssPx helper: the first style declaration matching
the pixel regex for the given property. -/
def cssPx (style : Option String) (prop : String) : Option Nat :=
  match style with
  | none => none
  | some st => (splitOnSep ';' st.data).findSome? (cssPxSeg prop.data)

/-- Scans for a ".svg" occurrence followed by the end of the string, a
question mark or a hash, modelling the svg-extension regex. -/
def svgExtScan : List Char → Bool
  | [] => false
  | c :: rest =>
    (['.', 's', 'v', 'g'].isPrefixOf (c :: rest) &&
      (match (c :: rest).drop 4 with
       | [] => true
       | d :: _ => d = '?' || d = '#')) || svgExtScan rest

/-- Models the source isSvgUrl helper (the undefined case is handled at
the call sites through Option). -/
def isSvgUrl (url : String) : Bool :=
  let s := lowerStr url
  startsWithStr s "data:image/svg+xml" || svgExtScan s.data || containsStr s "image/svg+xml"

/-- Splits a URL character list at the first "://" occurrence. -/
def splitSchemeRest : List Char → Option (List Char × List Char)
  | [] => none
  | c :: rest =>
    if [':', '/', '/'].isPrefixOf (c :: rest) then some ([], (c :: rest).drop 3)
    else (splitSchemeRest rest).map (fun p => (c :: p.1, p.2))

/-- Directory part of a path, through the last slash; the root when the
path is empty. -/
def dirOfPath (path : List Char) : List Char :=
  if path.isEmpty then ['/']
  else
    let kept := (path.reverse.dropWhile (fun c => ¬ c = '/')).reverse
    if kept.isEmpty then ['/'] else kept

/-- Models the WHATWG resolution performed by the URL constructor inside
the source resolveUrl helper, for the reference shapes exercised here:
already absolute references (with a scheme or a data prefix) are kept,
root-relative and plain relative references are resolved against the base
host and directory.  Scheme-relative references, dot segments and
normalisation are not modelled; an unparsable base yields none like the
caught constructor exception, and a falsy argument yields none like the
guard at the top of the helper. -/
def resolveUrl (maybeUrl : Option String) (baseUrl : Option String) : Option String :=
  match maybeUrl, baseUrl with
  | some u, some base =>
    if u.isEmpty || base.isEmpty then none
    else if containsStr u "://" || startsWithStr u "data:" then some u
    else
      match splitSchemeRest base.data with
      | none => none
      | some (scheme, rest) =>
        let host := rest.takeWhile (fun c => ¬ c = '/')
        let path := rest.dropWhile (fun c => ¬ c = '/')
        let origin := scheme ++ [':', '/', '/'] ++ host
        if u.data.head? = some '/' then some ⟨origin ++ u.data⟩
        else some ⟨origin ++ dirOfPath path ++ u.data⟩
  | _, _ => none

mutual
/-- DOM element or text node, the shape cheerio builds from markup. -/
inductive DomNode where
  | elem (tag : String) (attrs : List (String × String)) (children : DomNodes)
  | text (s : String)
/-- List of DOM nodes, mutual with DomNode so that all recursions stay
structural and computations reduce definitionally. -/
inductive DomNodes where
  | nil
  | cons (n : DomNode) (ns : DomNodes)
end

mutual
/-- Concatenated text content of a node, modelling the cheerio text
method. -/
def domText : DomNode → String
  | .text s => s
  | .elem _ _ cs => domsText cs
/-- Concatenated text content of a node list. -/
def domsText : DomNodes → String
  | .nil => ""
  | .cons n ns => domText n ++ domsText ns
end

mutual
/-- Removes every element whose tag is in the given list, recursively,
modelling the cheerio remove call on a tag selector list. -/
def removeTags (bad : List String) : DomNode → Option DomNode
  | .text s => some (.text s)
  | .elem tag attrs cs =>
    if tag ∈ bad then none else some (.elem tag attrs (removeTagsList bad cs))
/-- Removal over a node list. -/
def removeTagsList (bad : List String) : DomNodes → DomNodes
  | .nil => .nil
  | .cons n ns =>
    match removeTags bad n with
    | some m => .cons m (removeTagsList bad ns)
    | none => removeTagsList bad ns
end

mutual
/-- Collects, in document preorder, the element nodes satisfying the
predicate, modelling a cheerio selector match. -/
def collectElems (p : String → List (String × String) → Bool) : DomNode → List DomNode
  | .text _ => []
  | .elem tag attrs cs =>
    (if p tag attrs then [DomNode.elem tag attrs cs] else []) ++ collectElemsList p cs
/-- Collection over a node list. -/
def collectElemsList (p : String → List (String × String) → Bool) : DomNodes → List DomNode
  | .nil => []
  | .cons n ns => collectElems p n ++ collectElemsList p ns
end

/-- First value of an attribute, modelling the cheerio attr method. -/
def getAttr (attrs : List (String × String)) (name : String) : Option String :=
  (attrs.find? (fun a => a.1 = name)).map (fun a => a.2)

/-- Attribute list of a node. -/
def domAttrs : DomNode → List (String × String)
  | .elem _ a _ => a
  | .text _ => []

/-- Children of a node. -/
def domChildren : DomNode → DomNodes
  | .elem _ _ c => c
  | .text _ => .nil

/-- All elements with the given tag, in document order. -/
def collectTag (t : String) (doc : DomNodes) : List DomNode :=
  collectElemsList (fun tag _ => tag == t) doc

/-- One entry of a parsed srcset attribute. -/
structure SrcSetEntry where
  url : String
  descriptor : Option String
deriving DecidableEq, Repr

/-- Image metadata record, the ImageData shape of the source. -/
structure ImageData where
  src : Option String
  absSrc : Option String
  alt : Option String
  title : Option String
  width : Option Nat
  height : Option Nat
  loading : Option String
  decoding : Option String
  referrerPolicy : Option String
  crossorigin : Option String
  sizes : Option String
  srcset : List SrcSetEntry
deriving DecidableEq, Repr

/-- Token split of one srcset part, modelling a whitespace split limited
to two fields. -/
def splitFirstWs (l : List Char) : List Char × Option (List Char) :=
  let u := l.takeWhile (fun c => ¬ isWsChar c)
  let rest := (l.dropWhile (fun c => ¬ isWsChar c)).dropWhile isWsChar
  if rest.isEmpty then (u, none)
  else (u, some (rest.takeWhile (fun c => ¬ isWsChar c)))

/-- Models the source parseSrcSet helper. -/
def parseSrcSet (raw : Option String) (baseUrl : String) : List SrcSetEntry :=
  match raw with
  | none => []
  | some r =>
    if r.isEmpty then []
    else
      (((splitOnSep ',' r.data).map trimCharList).filter (fun p => ¬ p.isEmpty)).filterMap
        (fun part =>
          let (u, d) := splitFirstWs part
          match resolveUrl (some ⟨u⟩) (some baseUrl) with
          | some abs => some ⟨abs, d.map (fun dc => (⟨dc⟩ : String))⟩
          | none => none)

/-- Minimum pixel dimension below or at which images are discarded. -/
def MIN_DIMENSION_PX : Nat := 150

/-- Models the source processImageElement method. -/
def processImageElement (attrs : List (String × String)) (baseUrl : String) : ImageData :=
  let src := (getAttr attrs "src").map jsTrim
  let absSrc := resolveUrl src (some baseUrl)
  let srcsetRaw := (getAttr attrs "srcset").map jsTrim
  let alt := (getAttr attrs "alt").map jsTrim
  let title := (getAttr attrs "title").map jsTrim
  let loading := (getAttr attrs "loading").map jsTrim
  let decoding := (getAttr attrs "decoding").map jsTrim
  let widthAttr := numAttr (getAttr attrs "width")
  let heightAttr := numAttr (getAttr attrs "height")
  let style := (getAttr attrs "style").map jsTrim
  let widthStyle := cssPx style "width"
  let heightStyle := cssPx style "height"
  let width := widthAttr <|> widthStyle
  let height := heightAttr <|> heightStyle
  let referrerpolicy := (getAttr attrs "referrerpolicy").map jsTrim
  let crossorigin := (getAttr attrs "crossorigin").map jsTrim
  let sizes := (getAttr attrs "sizes").map jsTrim
  let srcsetParsed := (parseSrcSet srcsetRaw baseUrl).filter (fun e => ¬ isSvgUrl e.url)
  { src := match src with
      | some s => if s.isEmpty then none else some s
      | none => none,
    absSrc := absSrc, alt := alt, title := title,
    width := width, height := height,
    loading := loading, decoding := decoding,
    referrerPolicy := referrerpolicy, crossorigin := crossorigin,
    sizes := sizes, srcset := srcsetParsed }

/-- True when a declared dimension is present and at or below the
threshold. -/
def dimTooSmall : Option Nat → Bool
  | some n => n ≤ MIN_DIMENSION_PX
  | none => false

/-- Models the source isValidImage method. -/
def isValidImage (d : ImageData) : Bool :=
  if dimTooSmall d.width || dimTooSmall d.height then false
  else if (match d.absSrc with | some u => isSvgUrl u | none => false) then false
  else d.absSrc.isSome || ¬ d.srcset.isEmpty

/-- Models the source extractImages method (map each img element through
processImageElement and keep the valid ones). -/
def extractImages (doc : DomNodes) (baseUrl : String) : List ImageData :=
  ((collectTag "img" doc).map (fun n => processImageElement (domAttrs n) baseUrl)).filter
    isValidImage

/-- Figure metadata record, the FigureData shape of the source. -/
structure FigureData where
  caption : String
  images : List ImageData
deriving DecidableEq, Repr

/-- Models the source extractFigures method. -/
def extractFigures (doc : DomNodes) (baseUrl : String) : List FigureData :=
  (collectTag "figure" doc).map (fun fig =>
    { caption := collapseWs (String.join ((collectTag "figcaption" (domChildren fig)).map domText)),
      images := ((collectTag "img" (domChildren fig)).map
          (fun n => processImageElement (domAttrs n) baseUrl)).filter isValidImage })

/-- Normalised document record, the ScrapedData shape of the source. -/
structure ScrapedData where
  title : String
  text : String
  charCount : Nat
  wordCount : Nat
  images : List ImageData
  figures : List FigureData
deriving DecidableEq, Repr

/-- Cleanup selector list of parseHtml; it keeps the head element so the
title region survives the pass. -/
def cleanupTags : List String :=
  ["script", "style", "noscript", "template", "svg", "canvas", "iframe", "meta", "link"]

/-- First text child of an element, modelling the access to the first
child node data with a fallback to the empty string. -/
def firstTextChildData (n : DomNode) : String :=
  match domChildren n with
  | .cons (.text s) _ => s
  | _ => ""

/-- Joins strings with a newline separator. -/
def joinNl : List String → String
  | [] => ""
  | [s] => s
  | s :: rest => s ++ "\n" ++ joinNl rest

/-- JSON-LD script contents in document order, joined with newlines,
modelling the selection of ld+json scripts before cleanup. -/
def jsonLdOf (doc : DomNodes) : String :=
  joinNl (((collectElemsList (fun tag attrs =>
    tag == "script" && getAttr attrs "type" == some "application/ld+json") doc).map
      firstTextChildData).filter (fun s => ¬ s.isEmpty))

/-- Serialized app state, modelling the selection of the element whose id
attribute names the Next.js data blob. -/
def nextDataOf (doc : DomNodes) : String :=
  joinNl (((collectElemsList (fun _ attrs =>
    getAttr attrs "id" == some "__NEXT_DATA__") doc).map
      firstTextChildData).filter (fun s => ¬ s.isEmpty))

/-- Prefix test lifted to an optional attribute value. -/
def startsWithOpt (o : Option String) (pat : String) : Bool :=
  match o with
  | some s => startsWithStr s pat
  | none => false

/-- OpenGraph and SEO meta snippets in document order, modelling the meta
selector and the push of name-content pairs. -/
def metaSnippetsOf (doc : DomNodes) : List String :=
  (collectElemsList (fun tag attrs =>
    tag == "meta" &&
      (startsWithOpt (getAttr attrs "property") "og:" ||
       startsWithOpt (getAttr attrs "name") "og:" ||
       getAttr attrs "name" == some "description" ||
       getAttr attrs "property" == some "article:published_time")) doc).filterMap
    (fun n =>
      let attrs := domAttrs n
      let nm :=
        let p := (getAttr attrs "property").getD ""
        if ¬ p.isEmpty then p
        else
          let q := (getAttr attrs "name").getD ""
          if ¬ q.isEmpty then q else ""
      let content := jsTrim ((getAttr attrs "content").getD "")
      if ¬ nm.isEmpty && ¬ content.isEmpty then some (nm ++ ": " ++ content) else none)

/-- Text of the first title element, modelling the first-title selection. -/
def firstTitleText (doc : DomNodes) : String :=
  match collectTag "title" doc with
  | [] => ""
  | n :: _ => domText n

/-- Concatenated text of the body elements. -/
def bodyTextOf (doc : DomNodes) : String :=
  String.join ((collectTag "body" doc).map domText)

/-- Counts maximal non-whitespace runs; on trimmed nonempty text this is
the length of a whitespace split. -/
def countRuns : List Char → Bool → Nat
  | [], _ => 0
  | c :: rest, inWord =>
    if isWsChar c then countRuns rest false
    else (if inWord then 0 else 1) + countRuns rest true

/-- Word count of a trimmed text. -/
def countWords (s : String) : Nat := countRuns s.data false

/-- Takes the first n characters, modelling the slice call with a cap. -/
def takeChars (n : Nat) (s : String) : String := ⟨s.data.take n⟩

/-- Appends a size-capped metadata block, skipping absent (empty) blocks:
the enrichment step of parseHtml. -/
def appendCapped (t : String) (block : String) (cap : Nat) : String :=
  if block.isEmpty then t else jsTrim (t ++ "\n" ++ takeChars cap block)

/-- Appends the joined meta snippets capped at 2000 characters, skipping
the step when no snippet was collected. -/
def appendMetas (t : String) (metas : List String) : String :=
  if metas.isEmpty then t else jsTrim (t ++ "\n" ++ takeChars 2000 (joinNl metas))

/-- Models WebScraperService.parseHtml: the title and the metadata blocks
are captured before cleanup, cleanup keeps the head, then images, figures
and the enriched text are produced. -/
def parseHtml (doc : DomNodes) (baseUrl : String) : ScrapedData :=
  let title := jsTrim (firstTitleText doc)
  let jsonLdRaw := jsonLdOf doc
  let nextDataRaw := nextDataOf doc
  let metaSnippets := metaSnippetsOf doc
  let cleaned := removeTagsList cleanupTags doc
  let images := extractImages cleaned baseUrl
  let figures := extractFigures cleaned baseUrl
  let text0 := collapseWs (bodyTextOf cleaned)
  let text1 := appendCapped text0 jsonLdRaw 50000
  let text2 := appendCapped text1 nextDataRaw 50000
  let text3 := appendMetas text2 metaSnippets
  { title := title, text := text3, charCount := text3.length,
    wordCount := if text3.isEmpty then 0 else countWords text3,
    images := images, figures := figures }

/-- Models the falsy-to-undefined coercion applied to the src field. -/
def orUndef : Option String → Option String
  | some s => if s.isEmpty then none else some s
  | none => none

/-- Cleanup selector list of scrapeFromQuery, which additionally removes
the head element. -/
def sfqCleanupTags : List String := cleanupTags ++ ["head"]

/-- Models the inline image mapping of scrapeFromQuery (the same fields
and conditions as processImageElement plus isValidImage, written in the
early-return style of the source). -/
def sfqImage (attrs : List (String × String)) (url : String) : Option ImageData :=
  let src := (getAttr attrs "src").map jsTrim
  let absSrc := resolveUrl src (some url)
  let srcsetRaw := (getAttr attrs "srcset").map jsTrim
  let sizes := (getAttr attrs "sizes").map jsTrim
  let alt := (getAttr attrs "alt").map jsTrim
  let titleAttr := (getAttr attrs "title").map jsTrim
  let loading := (getAttr attrs "loading").map jsTrim
  let decoding := (getAttr attrs "decoding").map jsTrim
  let widthAttr := numAttr (getAttr attrs "width")
  let heightAttr := numAttr (getAttr attrs "height")
  let style := (getAttr attrs "style").map jsTrim
  let width := widthAttr <|> cssPx style "width"
  let height := heightAttr <|> cssPx style "height"
  let referrerpolicy := (getAttr attrs "referrerpolicy").map jsTrim
  let crossorigin := (getAttr attrs "crossorigin").map jsTrim
  if dimTooSmall width || dimTooSmall height then none
  else if (match absSrc with | some u => isSvgUrl u | none => false) then none
  else
    let srcsetParsed := (parseSrcSet srcsetRaw url).filter (fun e => ¬ isSvgUrl e.url)
    if absSrc.isNone && srcsetParsed.isEmpty then none
    else
      some { src := orUndef src,
             absSrc := absSrc, alt := alt, title := titleAttr,
             width := width, height := height,
             loading := loading, decoding := decoding,
             referrerPolicy := referrerpolicy, crossorigin := crossorigin,
             sizes := sizes, srcset := srcsetParsed }

/-- Models the inline figure-image mapping of scrapeFromQuery, which
builds records without the loading, decoding, referrer policy,
crossorigin and sizes fields. -/
def sfqFigureImage (attrs : List (String × String)) (url : String) : Option ImageData :=
  let src := (getAttr attrs "src").map jsTrim
  let absSrc := resolveUrl src (some url)
  let srcsetRaw := (getAttr attrs "srcset").map jsTrim
  let alt := (getAttr attrs "alt").map jsTrim
  let titleAttr := (getAttr attrs "title").map jsTrim
  let widthAttr := numAttr (getAttr attrs "width")
  let heightAttr := numAttr (getAttr attrs "height")
  let style := (getAttr attrs "style").map jsTrim
  let width := widthAttr <|> cssPx style "width"
  let height := heightAttr <|> cssPx style "height"
  if dimTooSmall width || dimTooSmall height then none
  else if (match absSrc with | some u => isSvgUrl u | none => false) then none
  else
    let srcsetParsed := (parseSrcSet srcsetRaw url).filter (fun e => ¬ isSvgUrl e.url)
    if absSrc.isNone && srcsetParsed.isEmpty then none
    else
      some { src := orUndef src,
             absSrc := absSrc, alt := alt, title := titleAttr,
             width := width, height := height,
             loading := none, decoding := none, referrerPolicy := none,
             crossorigin := none, sizes := none, srcset := srcsetParsed }

/-- Models the cheerio portion of scrapeFromQuery in scraper.ts: there the
cleanup pass (which includes the head) runs before the title is read. -/
def scrapeFromQueryData (doc : DomNodes) (url : String) : ScrapedData :=
  let cleaned := removeTagsList sfqCleanupTags doc
  let title := jsTrim (firstTitleText cleaned)
  let images := (collectTag "img" cleaned).filterMap (fun n => sfqImage (domAttrs n) url)
  let figures := (collectTag "figure" cleaned).map (fun fig =>
    { caption := collapseWs (String.join ((collectTag "figcaption" (domChildren fig)).map domText)),
      images := (collectTag "img" (domChildren fig)).filterMap
        (fun n => sfqFigureImage (domAttrs n) url) })
  let text := collapseWs (bodyTextOf cleaned)
  { title := title, text := text, charCount := text.length,
    wordCount := if text.isEmpty then 0 else countWords text,
    images := images, figures := figures }

/-- Result record of the host safety filter. -/
structure BlockCheck where
  blocked : Bool
  reason : Option String
deriving DecidableEq, Repr

/-- Parses one dotted-quad octet: digits only, value at most 255. -/
def octetOf (l : List Char) : Option Nat :=
  if l.isEmpty then none
  else if l.all Char.isDigit then
    let n := digitsToNat l
    if n ≤ 255 then some n else none
  else none

/-- Parses a literal IPv4 address. -/
def parseIPv4 (s : String) : Option (Nat × Nat × Nat × Nat) :=
  match (splitOnSep '.' s.data).mapM octetOf with
  | some [a, b, c, d] => some (a, b, c, d)
  | _ => none

/-- Loopback, link-local and private (RFC1918) first octets. -/
def isPrivateIPv4 (a b : Nat) : Bool :=
  a = 127 || a = 10 || (a = 192 && b = 168) || (a = 172 && 16 ≤ b && b ≤ 31) ||
    (a = 169 && b = 254) || a = 0

/-- Modelled from the spec: the Host Safety Filter isBlockedHost lives in
src/utils/net, which is absent from the sources; section 4.1 of the spec
describes it as flagging loopback, link-local, private (RFC1918/ULA) and
denylisted hosts, returning a blocked flag with a reason and never
throwing.  Literal IPs and the localhost names are classified here; DNS
resolution of public names is not modelled (such hosts come back
unblocked). -/
def isBlockedHost (hostname : String) : BlockCheck :=
  let h := lowerStr hostname
  if h = "localhost" || h = "::1" || h = "[::1]" then
    { blocked := true, reason := some "BLOCKED_HOST" }
  else
    match parseIPv4 h with
    | some (a, b, _, _) =>
      if isPrivateIPv4 a b then { blocked := true, reason := some "BLOCKED_HOST" }
      else { blocked := false, reason := none }
    | none => { blocked := false, reason := none }

/-- Anti-bot body signature test of the source. -/
def antiBot (body : String) : Bool :=
  containsIC body "access denied" || containsIC body "distil" || containsIC body "captcha"

/-- Real-estate hostnames that force the rendering transport. -/
def realEstateHosts : List String :=
  ["inmuebles24.com", "vivanuncios.com", "vivanuncios.com.mx", "lamudi.com",
   "lamudi.com.mx", "mercadolibre.com", "mercadolibre.com.mx"]

/-- Decision to go straight to Puppeteer for a host. -/
def shouldUsePuppeteerFor (usePuppeteer : Bool) (hostname : String) : Bool :=
  usePuppeteer || realEstateHosts.any (fun h => containsStr hostname h)

/-- Transport consumption events recorded by the fetch models. -/
inductive FetchEvent where
  | axiosGet
  | puppeteerFetch
deriving DecidableEq, Repr

/-- Outcome of one axios request, supplied by the environment oracle. -/
inductive AxiosOutcome where
  | resp (status : Nat) (body : String)
  | netErr (msg : String)
deriving DecidableEq, Repr

/-- Result of a fetch operation. -/
inductive FetchResult where
  | ok (status : Nat) (data : String)
  | error (msg : String)
deriving DecidableEq, Repr

/-- Lifts a rendering-transport outcome to a fetch result (the source
wraps returned markup into a synthetic 200 response and lets a thrown
error propagate). -/
def pupToResult : Except String String → FetchResult
  | .ok h => .ok 200 h
  | .error m => .error m

/-- Models WebScraperService.fetchRawHtml.  The single axios response and
the rendering-transport outcome are oracle parameters; consumed
transports are recorded in the event trace. -/
def fetchRawHtml (hostname : String) (usePuppeteer : Bool) (resp : AxiosOutcome)
    (pup : Except String String) : FetchResult × List FetchEvent :=
  if shouldUsePuppeteerFor usePuppeteer hostname then (pupToResult pup, [.puppeteerFetch])
  else
    match resp with
    | .netErr m => (.error m, [.axiosGet])
    | .resp st body =>
      if 200 ≤ st ∧ st < 400 then
        if antiBot body then (pupToResult pup, [.axiosGet, .puppeteerFetch])
        else (.ok st body, [.axiosGet])
      else if st = 403 ∨ st = 429 then (pupToResult pup, [.axiosGet, .puppeteerFetch])
      else (.error ("HTTP_ERROR: STATUS_" ++ toString st), [.axiosGet])

/-- Prefixes an event onto the trace of a result. -/
def consEv (e : FetchEvent) (r : FetchResult × List FetchEvent) : FetchResult × List FetchEvent :=
  (r.1, e :: r.2)

/-- Models the retry loop of WebScraperService.fetchPage: each attempt
consults the response oracle; a success status returns the response, a
403 or an anti-bot body escalates to the rendering transport, any other
status or a network fault records the error and retries after backoff,
and exhausted fuel surfaces the last error. -/
def fetchPageLoop (results : Nat → AxiosOutcome) (pup : Except String String) :
    Nat → Nat → Option String → FetchResult × List FetchEvent
  | 0, _, lastErr => (.error (lastErr.getD "REQUEST_FAILED"), [])
  | fuel + 1, attemptNo, _lastErr =>
    match results attemptNo with
    | .netErr m => consEv .axiosGet (fetchPageLoop results pup fuel (attemptNo + 1) (some m))
    | .resp st body =>
      if 200 ≤ st ∧ st < 400 then (.ok st body, [.axiosGet])
      else if st = 403 ∨ antiBot body = true then
        match pup with
        | .ok html => (.ok 200 html, [.axiosGet, .puppeteerFetch])
        | .error m =>
          consEv .axiosGet (consEv .puppeteerFetch
            (fetchPageLoop results pup fuel (attemptNo + 1) (some m)))
      else
        consEv .axiosGet (fetchPageLoop results pup fuel (attemptNo + 1)
          (some ("HTTP_ERROR_STATUS_" ++ toString st)))

/-- Models WebScraperService.fetchPage: real-estate hosts (or the forced
flag) go straight to the rendering transport, otherwise the axios retry
loop runs with four attempts. -/
def fetchPage (hostname : String) (usePuppeteer : Bool) (results : Nat → AxiosOutcome)
    (pup : Except String String) : FetchResult × List FetchEvent :=
  if shouldUsePuppeteerFor usePuppeteer hostname then (pupToResult pup, [.puppeteerFetch])
  else fetchPageLoop results pup 4 0 none

/-- Attempt outcomes on which the fetchPage loop keeps retrying (neither
a success status nor an escalation trigger). -/
def axiosContinues : AxiosOutcome → Bool
  | .netErr _ => true
  | .resp st body => ¬ (200 ≤ st ∧ st < 400) && ¬ (st = 403 ∨ antiBot body = true)

/-- Attempt outcomes that trigger the rendering escalation inside the
fetchPage loop. -/
def axiosEscalates : AxiosOutcome → Bool
  | .netErr _ => false
  | .resp st body => ¬ (200 ≤ st ∧ st < 400) && (st = 403 ∨ antiBot body = true)

/-- Parsed pieces of an absolute URL: the fields of the URL object the
source reads. -/
structure UrlParts where
  protocol : String
  hostname : String
  path : String
deriving DecidableEq, Repr

/-- Serialises the parts back to the href string handed to the fetch and
parse stages. -/
def urlString (u : UrlParts) : String := u.protocol ++ "//" ++ u.hostname ++ u.path

/-- Outcome of scrapeUrl. -/
inductive ScrapeOutcome where
  | ok (d : ScrapedData)
  | err (msg : String)
deriving DecidableEq, Repr

/-- Models WebScraperService.scrapeUrl: protocol validation, then the host
safety filter, then the fetch and the parse.  The markup-to-DOM step
performed by the cheerio load call is an oracle parameter; the
axios-specific rewrapping of error messages in the catch block is not
modelled (messages pass through unchanged). -/
def scrapeUrl (u : UrlParts) (usePuppeteer : Bool) (results : Nat → AxiosOutcome)
    (pup : Except String String) (parse : String → DomNodes) :
    ScrapeOutcome × List FetchEvent :=
  if ¬ (u.protocol = "http:" ∨ u.protocol = "https:") then (.err "UNSUPPORTED_PROTOCOL", [])
  else
    let blockCheck := isBlockedHost u.hostname
    if blockCheck.blocked then (.err (blockCheck.reason.getD "BLOCKED_HOST"), [])
    else
      match fetchPage u.hostname usePuppeteer results pup with
      | (.ok _ body, evs) => (.ok (parseHtml (parse body) (urlString u)), evs)
      | (.error m, evs) => (.err m, evs)

/-- HTTP-style outcome of scrapeFromQuery. -/
structure QueryOutcome where
  status : Nat
  error : Option String
  data : Option ScrapedData
deriving DecidableEq, Repr

/-- Models the scrapeFromQuery function of scraper.ts: URL validation,
protocol check, host safety filter, then a single axios request and the
cheerio pipeline.  The zod URL validation is abstracted to a flag, the
markup-to-DOM step to an oracle, and the axios error code strings of the
catch block to one fixed label. -/
def scrapeFromQuery (urlValid : Bool) (u : UrlParts) (ax : AxiosOutcome)
    (parse : String → DomNodes) : QueryOutcome × List FetchEvent :=
  if ¬ urlValid then ({ status := 400, error := some "INVALID_URL", data := none }, [])
  else if ¬ (u.protocol = "http:" ∨ u.protocol = "https:") then
    ({ status := 400, error := some "UNSUPPORTED_PROTOCOL", data := none }, [])
  else
    let blockCheck := isBlockedHost u.hostname
    if blockCheck.blocked then
      ({ status := 400, error := blockCheck.reason, data := none }, [])
    else
      match ax with
      | .netErr _ => ({ status := 500, error := some "AXIOS_ERROR", data := none }, [.axiosGet])
      | .resp st body =>
        if 200 ≤ st ∧ st < 400 then
          ({ status := 200, error := none,
             data := some (scrapeFromQueryData (parse body) (urlString u)) }, [.axiosGet])
        else
          ({ status := if 400 ≤ st ∧ st < 600 then st else 500,
             error := some "AXIOS_ERROR", data := none }, [.axiosGet])

/-- Events of one rendering-transport invocation. -/
inductive SessionEvent where
  | launch
  | navigate
  | close
deriving DecidableEq, Repr

/-- Outcome of one run of the navigation body, supplied by the
environment oracle (a thrown error carries its message). -/
inductive RunOutcome where
  | ok (html : String)
  | err (msg : String)
deriving DecidableEq, Repr

/-- Transient navigation fault test of the retry guard. -/
def contextDestroyed (m : String) : Bool := containsIC m "execution context was destroyed"

/-- Models WebScraperService.fetchWithPuppeteer: launch the session, run
the navigation body (retried once when the execution context was
destroyed by a navigation), and close the browser in the finally block on
every exit path.  The outcomes of the two possible body runs are oracle
parameters; a failed launch means no session was obtained. -/
def fetchWithPuppeteer (launchOk : Bool) (first second : RunOutcome) :
    Except String String × List SessionEvent :=
  if ¬ launchOk then (.error "PUPPETEER_LAUNCH_FAILED", [])
  else
    let run : Except String String × List SessionEvent :=
      match first with
      | .ok h => (.ok h, [.navigate])
      | .err m =>
        if contextDestroyed m then
          match second with
          | .ok h => (.ok h, [.navigate, .navigate])
          | .err m2 => (.error m2, [.navigate, .navigate])
        else (.error m, [.navigate])
    (run.1, .launch :: run.2 ++ [.close])

/-- Sampled page state of the readiness poll: document title and body
text length. -/
structure PageState where
  title : String
  bodyLen : Nat
deriving DecidableEq, Repr

/-- Interstitial title pattern of the source. -/
def interstitialTitle (t : String) : Bool :=
  containsIC t "un momento" || containsIC t "checking your browser" ||
    containsIC t "verificando" || containsIC t "please wait"

/-- Host family for which the interstitial reload is enabled. -/
def isI24Host (hostname : String) : Bool := containsIC hostname "inmuebles24.com"

/-- Models the polling loop of waitForRealContent over the sequence of
page states observed at successive samples (exhaustion of the list models
the deadline).  Returns the index of the sample at which the loop
succeeded, if any, together with the number of reloads performed. -/
def waitLoop (isI24 : Bool) : Bool → Nat → Nat → List PageState → Option Nat × Nat
  | _, reloads, _, [] => (none, reloads)
  | reloaded, reloads, idx, st :: rest =>
    if (!interstitialTitle st.title || !isI24) && decide (1200 < st.bodyLen) then
      (some idx, reloads)
    else if isI24 && interstitialTitle st.title && !reloaded then
      waitLoop isI24 true (reloads + 1) (idx + 1) rest
    else waitLoop isI24 reloaded reloads (idx + 1) rest

/-- Models WebScraperService.waitForRealContent for a hostname. -/
def waitForRealContent (hostname : String) (states : List PageState) : Option Nat × Nat :=
  waitLoop (isI24Host hostname) false 0 0 states

/-- Scripted readiness sequence from the specification scenario: two
interstitial samples with short bodies, then a normal title with a long
body. -/
def scriptedStates : List PageState :=
  [⟨"Un momento", 100⟩, ⟨"Un momento", 100⟩, ⟨"Casa en venta en CDMX", 5000⟩]

/-- Builds a DomNodes spine from a plain list (fixture helper). -/
def domList : List DomNode → DomNodes := fun l => l.foldr DomNodes.cons DomNodes.nil

/-- Markup fixture of the image-filter scenario: a title inside the head
and a body with a 100 by 100 image carrying no source and a 400 by 300
image with a root-relative source. -/
def fixtureDoc : DomNodes := domList [
  .elem "html" [] (domList [
    .elem "head" [] (domList [.elem "title" [] (domList [.text "My Page"])]),
    .elem "body" [] (domList [
      .elem "img" [("width", "100"), ("height", "100")] .nil,
      .elem "img" [("width", "400"), ("height", "300"), ("src", "/a.jpg")] .nil])])]

/-- Base URL used by the fixtures. -/
def fixtureBase : String := "https://example.com/page"

/-- Image descriptor that survives normalisation of the fixture. -/
def fixtureSurvivor : ImageData :=
  { src := some "/a.jpg", absSrc := some "https://example.com/a.jpg",
    alt := none, title := none, width := some 400, height := some 300,
    loading := none, decoding := none, referrerPolicy := none,
    crossorigin := none, sizes := none, srcset := [] }

/-- Markup fixture with all three structured metadata blocks present. -/
def metadataDoc : DomNodes := domList [
  .elem "html" [] (domList [
    .elem "head" [] (domList [
      .elem "script" [("type", "application/ld+json")] (domList [.text "LD1"]),
      .elem "script" [("id", "__NEXT_DATA__")] (domList [.text "NEXT1"]),
      .elem "meta" [("property", "og:title"), ("content", "Casa")] .nil]),
    .elem "body" [] (domList [.text "Casa bonita"])])]

/-- Markup fixture with a zero-by-zero tracking pixel that has a source. -/
def pixelDoc : DomNodes := domList [
  .elem "body" [] (domList [
    .elem "img" [("src", "/pixel.gif"), ("width", "0"), ("height", "0")] .nil])]

/-- Descriptor the tracking pixel produces. -/
def pixelImage : ImageData :=
  { src := some "/pixel.gif", absSrc := some "https://example.com/pixel.gif",
    alt := none, title := none, width := none, height := none,
    loading := none, decoding := none, referrerPolicy := none,
    crossorigin := none, sizes := none, srcset := [] }

/-- Attribute list of the tracking pixel. -/
def pixelAttrs : List (String × String) := [("src", "/pixel.gif"), ("width", "0"), ("height", "0")]

/-- Projection lemma: the images of parseHtml come from extractImages on
the cleaned tree. -/
theorem parseHtml_images (doc : DomNodes) (base : String) :
    (parseHtml doc base).images = extractImages (removeTagsList cleanupTags doc) base := rfl

/-- Projection lemma: the figures of parseHtml come from extractFigures on
the cleaned tree. -/
theorem parseHtml_figures (doc : DomNodes) (base : String) :
    (parseHtml doc base).figures = extractFigures (removeTagsList cleanupTags doc) base := rfl

/-- Every member of extractImages passed validation and is the processing
of some attribute list. -/
theorem mem_extractImages {doc : DomNodes} {base : String} {img : ImageData}
    (h : img ∈ extractImages doc base) :
    isValidImage img = true ∧ ∃ attrs, img = processImageElement attrs base := by
  unfold extractImages at h
  rw [List.mem_filter] at h
  rcases h with ⟨hm, hv⟩
  rw [List.mem_map] at hm
  rcases hm with ⟨n, _, hn⟩
  exact ⟨hv, domAttrs n, hn.symm⟩

/-- Every image inside a figure of extractFigures passed validation and is
the processing of some attribute list. -/
theorem mem_figure_images {doc : DomNodes} {base : String} {f : FigureData} {img : ImageData}
    (hf : f ∈ extractFigures doc base) (hi : img ∈ f.images) :
    isValidImage img = true ∧ ∃ attrs, img = processImageElement attrs base := by
  unfold extractFigures at hf
  rw [List.mem_map] at hf
  rcases hf with ⟨fig, _, hfig⟩
  rw [← hfig] at hi
  simp only at hi
  rw [List.mem_filter] at hi
  rcases hi with ⟨hm, hv⟩
  rw [List.mem_map] at hm
  rcases hm with ⟨n, _, hn⟩
  exact ⟨hv, domAttrs n, hn.symm⟩

/-- Unpacks the boolean validity test into its guaranteed properties. -/
theorem isValidImage_props {d : ImageData} (h : isValidImage d = true) :
    (d.absSrc.isSome ∨ d.srcset ≠ []) ∧
    (∀ u, d.absSrc = some u → isSvgUrl u = false) ∧
    (∀ w, d.width = some w → MIN_DIMENSION_PX < w) ∧
    (∀ v, d.height = some v → MIN_DIMENSION_PX < v) := by
  unfold isValidImage at h
  split at h
  · exact absurd h (by simp)
  · rename_i hdim
    split at h
    · exact absurd h (by simp)
    · rename_i hsvg
      refine ⟨?_, ?_, ?_, ?_⟩
      · rcases Bool.or_eq_true_iff.mp h with h1 | h2
        · exact Or.inl h1
        · right
          intro hempty
          rw [hempty] at h2
          simp at h2
      · intro u hu
        rw [hu] at hsvg
        simpa using hsvg
      · intro w hw
        have hfw : dimTooSmall d.width = false := by
          rcases Bool.eq_false_or_eq_true (dimTooSmall d.width) with ht | hf
          · exact absurd (by simp [ht]) hdim
          · exact hf
        rw [hw] at hfw
        have hnle : ¬ (w ≤ MIN_DIMENSION_PX) := by simpa [dimTooSmall] using hfw
        omega
      · intro v hv
        have hfh : dimTooSmall d.height = false := by
          rcases Bool.eq_false_or_eq_true (dimTooSmall d.height) with ht | hf
          · exact absurd (by simp [ht, Bool.or_eq_true_iff]) hdim
          · exact hf
        rw [hv] at hfh
        have hnle : ¬ (v ≤ MIN_DIMENSION_PX) := by simpa [dimTooSmall] using hfh
        omega

/-- The srcset entries built by processImageElement were filtered against
svg references. -/
theorem processImageElement_srcset_noSvg (attrs : List (String × String)) (base : String) :
    ∀ e ∈ (processImageElement attrs base).srcset, isSvgUrl e.url = false := by
  intro e he
  have hform : (processImageElement attrs base).srcset =
      (parseSrcSet ((getAttr attrs "srcset").map jsTrim) base).filter
        (fun e => ¬ isSvgUrl e.url) := rfl
  rw [hform, List.mem_filter] at he
  simpa using he.2

/-- C5: for every markup input and base URL, every image descriptor in the
normaliser output (top-level images and inside figures) has an absolute
URL or at least one source-set entry, neither the absolute URL nor any
source-set entry references SVG, and neither declared dimension is at or
below the 150 pixel threshold; and on the fixture with one 100 by 100
image and one 400 by 300 image with a root-relative source, only the
second survives, with its URL resolved against the base. -/
theorem c5_image_invariants :
    (∀ (doc : DomNodes) (base : String) (img : ImageData),
        (img ∈ (parseHtml doc base).images ∨
          ∃ f ∈ (parseHtml doc base).figures, img ∈ f.images) →
        (img.absSrc.isSome ∨ img.srcset ≠ []) ∧
        (∀ u, img.absSrc = some u → isSvgUrl u = false) ∧
        (∀ e ∈ img.srcset, isSvgUrl e.url = false) ∧
        (∀ w, img.width = some w → MIN_DIMENSION_PX < w) ∧
        (∀ v, img.height = some v → MIN_DIMENSION_PX < v)) ∧
    (parseHtml fixtureDoc fixtureBase).images = [fixtureSurvivor] := by
  constructor
  · intro doc base img hmem
    have hva : isValidImage img = true ∧ ∃ attrs, img = processImageElement attrs base := by
      rcases hmem with h | ⟨f, hf, hi⟩
      · exact mem_extractImages (by rw [← parseHtml_images]; exact h)
      · exact mem_figure_images (by rw [← parseHtml_figures]; exact hf) hi
    rcases hva with ⟨hv, attrs, himg⟩
    have hp := isValidImage_props hv
    refine ⟨hp.1, hp.2.1, ?_, hp.2.2.1, hp.2.2.2⟩
    intro e he
    rw [himg] at he
    exact processImageElement_srcset_noSvg attrs base e he
  · rfl

/-- Witness for C5: the surviving fixture descriptor satisfies the
invariants, obtained by applying the theorem at the fixture. -/
theorem c5_image_invariants_witness :
    (fixtureSurvivor.absSrc.isSome ∨ fixtureSurvivor.srcset ≠ []) ∧ MIN_DIMENSION_PX < 400 := by
  have h := c5_image_invariants.1 fixtureDoc fixtureBase fixtureSurvivor
    (Or.inl (by rw [c5_image_invariants.2]; exact List.mem_singleton.mpr rfl))
  exact ⟨h.1, h.2.2.2.1 400 rfl⟩

/-- C6: the web-scraper parseHtml captures the title before its cleanup
pass (which keeps the head), so a title inside the head survives; the
scrapeFromQuery variant in scraper.ts instead removes the head before
reading the title, so the same document loses its title there. -/
theorem c6_title_capture_divergence :
    (parseHtml fixtureDoc fixtureBase).title = "My Page" ∧
    (scrapeFromQueryData fixtureDoc fixtureBase).title = "" := ⟨rfl, rfl⟩

/-- C7: for every markup input the enriched text of parseHtml is the
cleaned body text followed, in this fixed order, by the JSON-LD block
capped at 50000 characters, the app-state blob capped at 50000
characters, and the joined meta snippets capped at 2000 characters, each
step skipped when the block is absent; on a fixture with all three blocks
the text lists them in that order. -/
theorem c7_metadata_append_order :
    (∀ (doc : DomNodes) (base : String),
        (parseHtml doc base).text =
          appendMetas
            (appendCapped
              (appendCapped (collapseWs (bodyTextOf (removeTagsList cleanupTags doc)))
                (jsonLdOf doc) 50000)
              (nextDataOf doc) 50000)
            (metaSnippetsOf doc)) ∧
    (parseHtml metadataDoc fixtureBase).text = "Casa bonita\nLD1\nNEXT1\nog:title: Casa" :=
  ⟨fun _ _ => rfl, rfl⟩

/-- C9: the normaliser is deterministic; the embedding of parseHtml is a
pure function of the document and base URL, mirroring the source method,
which consults no randomness and no external state, so equal inputs give
equal normalised documents. -/
theorem c9_normalizer_deterministic (d1 d2 : DomNodes) (u1 u2 : String)
    (hd : d1 = d2) (hu : u1 = u2) : parseHtml d1 u1 = parseHtml d2 u2 := by
  rw [hd, hu]

/-- Witness for C9 at the fixture. -/
theorem c9_normalizer_deterministic_witness :
    parseHtml fixtureDoc fixtureBase = parseHtml fixtureDoc fixtureBase :=
  c9_normalizer_deterministic fixtureDoc fixtureDoc fixtureBase fixtureBase rfl rfl

/-- C10: a width or height attribute of "0" or a non-numeric one such as
"100%" is coerced to undefined by the Number-with-falsy-fallback idiom,
so (absent a style fallback) the processed descriptor carries no
dimensions, bypassing the minimum-dimension exclusion; in particular the
zero-by-zero tracking pixel with a source is kept by the normaliser. -/
theorem c10_zero_dimension_bypass :
    numAttr (some "0") = none ∧ numAttr (some "100%") = none ∧
    (∀ (attrs : List (String × String)) (base : String),
        numAttr (getAttr attrs "width") = none →
        numAttr (getAttr attrs "height") = none →
        getAttr attrs "style" = none →
        (processImageElement attrs base).width = none ∧
        (processImageElement attrs base).height = none) ∧
    (parseHtml pixelDoc fixtureBase).images = [pixelImage] := by
  refine ⟨rfl, rfl, ?_, rfl⟩
  intro attrs base hw hh hs
  constructor
  · show (numAttr (getAttr attrs "width") <|>
      cssPx ((getAttr attrs "style").map jsTrim) "width") = none
    rw [hw, hs]
    rfl
  · show (numAttr (getAttr attrs "height") <|>
      cssPx ((getAttr attrs "style").map jsTrim) "height") = none
    rw [hh, hs]
    rfl

/-- Witness for C10: the tracking-pixel attributes get dimensionless
descriptors, by applying the theorem at the concrete attribute list. -/
theorem c10_zero_dimension_bypass_witness :
    (processImageElement pixelAttrs fixtureBase).width = none ∧
    (processImageElement pixelAttrs fixtureBase).height = none :=
  c10_zero_dimension_bypass.2.2.1 pixelAttrs fixtureBase rfl rfl rfl

/-- C1: for every URL with an http or https protocol whose hostname the
host safety filter classifies as blocked, both acquisition operations
surface the filter reason and consult no transport: the event trace
stays empty, so the host check runs strictly before any network fetch. -/
theorem c1_blocked_host_short_circuit (u : UrlParts) (usePuppeteer : Bool)
    (results : Nat → AxiosOutcome) (pup : Except String String)
    (parse : String → DomNodes) (ax : AxiosOutcome)
    (hp : u.protocol = "http:" ∨ u.protocol = "https:")
    (hb : (isBlockedHost u.hostname).blocked = true) :
    scrapeUrl u usePuppeteer results pup parse =
      (.err ((isBlockedHost u.hostname).reason.getD "BLOCKED_HOST"), []) ∧
    scrapeFromQuery true u ax parse =
      ({ status := 400, error := (isBlockedHost u.hostname).reason, data := none }, []) := by
  rcases hp with hp | hp <;> constructor <;> simp [scrapeUrl, scrapeFromQuery, hp, hb]

/-- Witness for C1 at the loopback literal. -/
theorem c1_blocked_host_witness :
    scrapeUrl ⟨"http:", "127.0.0.1", "/admin"⟩ false (fun _ => .netErr "boom") (.ok "HTML")
        (fun _ => DomNodes.nil) = (.err "BLOCKED_HOST", []) ∧
    scrapeFromQuery true ⟨"http:", "127.0.0.1", "/admin"⟩ (.netErr "boom")
        (fun _ => DomNodes.nil) =
      ({ status := 400, error := some "BLOCKED_HOST", data := none }, []) :=
  c1_blocked_host_short_circuit ⟨"http:", "127.0.0.1", "/admin"⟩ false
    (fun _ => .netErr "boom") (.ok "HTML") (fun _ => DomNodes.nil) (.netErr "boom")
    (Or.inl rfl) (by decide)

/-- C8: a URL whose scheme is neither http nor https fails immediately
with UNSUPPORTED_PROTOCOL in both acquisition operations, before the host
check, with an empty event trace. -/
theorem c8_unsupported_protocol (u : UrlParts) (usePuppeteer : Bool)
    (results : Nat → AxiosOutcome) (pup : Except String String)
    (parse : String → DomNodes) (ax : AxiosOutcome)
    (hp : ¬ (u.protocol = "http:" ∨ u.protocol = "https:")) :
    scrapeUrl u usePuppeteer results pup parse = (.err "UNSUPPORTED_PROTOCOL", []) ∧
    scrapeFromQuery true u ax parse =
      ({ status := 400, error := some "UNSUPPORTED_PROTOCOL", data := none }, []) := by
  constructor <;> simp [scrapeUrl, scrapeFromQuery, hp]

/-- Witness for C8 at an ftp URL. -/
theorem c8_unsupported_protocol_witness :
    scrapeUrl ⟨"ftp:", "example.com", "/file"⟩ false (fun _ => .netErr "x") (.ok "HTML")
        (fun _ => DomNodes.nil) = (.err "UNSUPPORTED_PROTOCOL", []) ∧
    scrapeFromQuery true ⟨"ftp:", "example.com", "/file"⟩ (.netErr "x")
        (fun _ => DomNodes.nil) =
      ({ status := 400, error := some "UNSUPPORTED_PROTOCOL", data := none }, []) :=
  c8_unsupported_protocol ⟨"ftp:", "example.com", "/file"⟩ false (fun _ => .netErr "x")
    (.ok "HTML") (fun _ => DomNodes.nil) (.netErr "x") (by decide)

/-- Membership in a trace is preserved by prefixing an event. -/
theorem mem_consEv {e e2 : FetchEvent} {r : FetchResult × List FetchEvent}
    (h : e2 ∈ r.2) : e2 ∈ (consEv e r).2 := List.mem_cons_of_mem e h

/-- Step equation of the retry loop with remaining fuel. -/
theorem fetchPageLoop_succ (results : Nat → AxiosOutcome) (pup : Except String String)
    (fuel attemptNo : Nat) (lastErr : Option String) :
    fetchPageLoop results pup (fuel + 1) attemptNo lastErr =
      match results attemptNo with
      | .netErr m => consEv .axiosGet (fetchPageLoop results pup fuel (attemptNo + 1) (some m))
      | .resp st body =>
        if 200 ≤ st ∧ st < 400 then (.ok st body, [.axiosGet])
        else if st = 403 ∨ antiBot body = true then
          match pup with
          | .ok html => (.ok 200 html, [.axiosGet, .puppeteerFetch])
          | .error m =>
            consEv .axiosGet (consEv .puppeteerFetch
              (fetchPageLoop results pup fuel (attemptNo + 1) (some m)))
        else
          consEv .axiosGet (fetchPageLoop results pup fuel (attemptNo + 1)
            (some ("HTTP_ERROR_STATUS_" ++ toString st))) := rfl

/-- Step equation of the retry loop on a network fault. -/
theorem fetchPageLoop_netErr {results : Nat → AxiosOutcome} {pup : Except String String}
    {fuel attemptNo : Nat} {lastErr : Option String} {m : String}
    (hres : results attemptNo = .netErr m) :
    fetchPageLoop results pup (fuel + 1) attemptNo lastErr =
      consEv .axiosGet (fetchPageLoop results pup fuel (attemptNo + 1) (some m)) := by
  rw [fetchPageLoop_succ, hres]

/-- Step equation of the retry loop on an HTTP response. -/
theorem fetchPageLoop_resp {results : Nat → AxiosOutcome} {pup : Except String String}
    {fuel attemptNo : Nat} {lastErr : Option String} {st : Nat} {body : String}
    (hres : results attemptNo = .resp st body) :
    fetchPageLoop results pup (fuel + 1) attemptNo lastErr =
      (if 200 ≤ st ∧ st < 400 then (.ok st body, [.axiosGet])
       else if st = 403 ∨ antiBot body = true then
         match pup with
         | .ok html => (.ok 200 html, [.axiosGet, .puppeteerFetch])
         | .error m =>
           consEv .axiosGet (consEv .puppeteerFetch
             (fetchPageLoop results pup fuel (attemptNo + 1) (some m)))
       else
         consEv .axiosGet (fetchPageLoop results pup fuel (attemptNo + 1)
           (some ("HTTP_ERROR_STATUS_" ++ toString st)))) := by
  rw [fetchPageLoop_succ, hres]

/-- Reaching an escalating attempt after retry-continuing attempts only
puts a rendering-transport event in the loop trace. -/
theorem fetchPageLoop_escalates (results : Nat → AxiosOutcome) (pup : Except String String) :
    ∀ (k fuel attemptNo : Nat) (lastErr : Option String),
      k < fuel →
      (∀ j, j < k → axiosContinues (results (attemptNo + j)) = true) →
      axiosEscalates (results (attemptNo + k)) = true →
      FetchEvent.puppeteerFetch ∈ (fetchPageLoop results pup fuel attemptNo lastErr).2 := by
  intro k
  induction k with
  | zero =>
    intro fuel attemptNo lastErr hk hcont htrig
    cases fuel with
    | zero => exact absurd hk (by omega)
    | succ fuel =>
      rw [Nat.add_zero] at htrig
      cases hres : results attemptNo with
      | netErr m => rw [hres] at htrig; simp [axiosEscalates] at htrig
      | resp st body =>
        rw [hres] at htrig
        simp only [axiosEscalates, Bool.and_eq_true, decide_eq_true_eq] at htrig
        rw [fetchPageLoop_resp hres, if_neg htrig.1, if_pos htrig.2]
        cases pup with
        | ok html => simp
        | error m => simp [consEv]
  | succ k ih =>
    intro fuel attemptNo lastErr hk hcont htrig
    cases fuel with
    | zero => exact absurd hk (by omega)
    | succ fuel =>
      have h0 : axiosContinues (results attemptNo) = true := by
        have h := hcont 0 (Nat.succ_pos k)
        rwa [Nat.add_zero] at h
      have hshift : ∀ j, j < k → axiosContinues (results (attemptNo + 1 + j)) = true := by
        intro j hj
        have h := hcont (j + 1) (Nat.succ_lt_succ hj)
        have he : attemptNo + (j + 1) = attemptNo + 1 + j := by omega
        rwa [he] at h
      have htrig2 : axiosEscalates (results (attemptNo + 1 + k)) = true := by
        have he : attemptNo + (k + 1) = attemptNo + 1 + k := by omega
        rwa [he] at htrig
      have hklt : k < fuel := Nat.lt_of_succ_lt_succ hk
      cases hres : results attemptNo with
      | netErr m =>
        rw [fetchPageLoop_netErr hres]
        exact mem_consEv (ih fuel (attemptNo + 1) (some m) hklt hshift htrig2)
      | resp st body =>
        rw [hres] at h0
        simp only [axiosContinues, Bool.and_eq_true, decide_eq_true_eq] at h0
        rw [fetchPageLoop_resp hres, if_neg h0.1, if_neg h0.2]
        exact mem_consEv
          (ih fuel (attemptNo + 1) (some ("HTTP_ERROR_STATUS_" ++ toString st)) hklt hshift htrig2)

/-- C2 counterexample: a 500 response whose body matches the anti-bot
signature is surfaced by fetchRawHtml as an HTTP status error, with no
escalation to the rendering transport, contrary to the claim that every
anti-bot body escalates. -/
theorem c2_antibot_counterexample :
    antiBot "captcha" = true ∧
    fetchRawHtml "example.com" false (.resp 500 "captcha") (.ok "RENDERED") =
      (.error "HTTP_ERROR: STATUS_500", [.axiosGet]) ∧
    FetchEvent.puppeteerFetch ∉
      (fetchRawHtml "example.com" false (.resp 500 "captcha") (.ok "RENDERED")).2 := by
  refine ⟨rfl, rfl, by decide⟩

/-- C2 amended: fetchRawHtml escalates to the rendering transport exactly
on a success-status response with an anti-bot body and on a 403 or 429
status; the fetchPage retry loop escalates whenever it reaches an attempt
whose response has a non-success status together with a 403 code or an
anti-bot body. -/
theorem c2_amended_escalation :
    (∀ (host : String) (st : Nat) (body : String) (pup : Except String String),
        shouldUsePuppeteerFor false host = false →
        (200 ≤ st ∧ st < 400) →
        antiBot body = true →
        fetchRawHtml host false (.resp st body) pup =
          (pupToResult pup, [.axiosGet, .puppeteerFetch])) ∧
    (∀ (host : String) (st : Nat) (body : String) (pup : Except String String),
        shouldUsePuppeteerFor false host = false →
        (st = 403 ∨ st = 429) →
        fetchRawHtml host false (.resp st body) pup =
          (pupToResult pup, [.axiosGet, .puppeteerFetch])) ∧
    (∀ (host : String) (usePuppeteer : Bool) (results : Nat → AxiosOutcome)
        (pup : Except String String) (k : Nat),
        shouldUsePuppeteerFor usePuppeteer host = false →
        k < 4 →
        (∀ j, j < k → axiosContinues (results j) = true) →
        axiosEscalates (results k) = true →
        FetchEvent.puppeteerFetch ∈ (fetchPage host usePuppeteer results pup).2) := by
  refine ⟨?_, ?_, ?_⟩
  · intro host st body pup hhost hsucc hab
    simp [fetchRawHtml, hhost, hsucc, hab]
  · intro host st body pup hhost h403
    rcases h403 with rfl | rfl <;> simp [fetchRawHtml, hhost]
  · intro host usePuppeteer results pup k hhost hk hcont htrig
    unfold fetchPage
    rw [if_neg (by simp [hhost])]
    refine fetchPageLoop_escalates results pup k 4 0 none hk ?_ ?_
    · intro j hj
      rw [Nat.zero_add]
      exact hcont j hj
    · rw [Nat.zero_add]
      exact htrig

/-- Witness for C2 amended: a 200 response with a captcha body escalates
in fetchRawHtml, and a first-attempt 403 escalates in fetchPage. -/
theorem c2_amended_escalation_witness :
    fetchRawHtml "example.com" false (.resp 200 "captcha") (.ok "RENDERED") =
      (pupToResult (.ok "RENDERED"), [.axiosGet, .puppeteerFetch]) ∧
    FetchEvent.puppeteerFetch ∈
      (fetchPage "example.com" false (fun _ => .resp 403 "denied") (.ok "RENDERED")).2 :=
  ⟨c2_amended_escalation.1 "example.com" 200 "captcha" (.ok "RENDERED") (by decide)
      (by omega) (by decide),
   c2_amended_escalation.2.2 "example.com" false (fun _ => .resp 403 "denied") (.ok "RENDERED") 0
      (by decide) (by omega) (fun j hj => absurd hj (Nat.not_lt_zero j)) (by decide)⟩

/-- The polling loop never performs more than one reload beyond the
budget left by the reloaded flag. -/
theorem waitLoop_reload_bound (isI24 : Bool) (states : List PageState) :
    ∀ (reloaded : Bool) (reloads idx : Nat),
      (waitLoop isI24 reloaded reloads idx states).2 ≤
        reloads + (if reloaded then 0 else 1) := by
  induction states with
  | nil =>
    intro reloaded reloads idx
    cases reloaded <;> simp [waitLoop]
  | cons st rest ih =>
    intro reloaded reloads idx
    unfold waitLoop
    split
    · cases reloaded <;> simp
    · split
      · rename_i hcond
        have hrel : reloaded = false := by
          cases reloaded
          · rfl
          · simp at hcond
        subst hrel
        have h := ih true (reloads + 1) (idx + 1)
        simpa using h
      · exact ih reloaded reloads (idx + 1)

/-- C3 counterexample: on the scripted interstitial sequence with a
hostname outside the inmuebles24 family, the polling loop performs zero
reloads (not the claimed exactly one), though it still succeeds only at
the third sample. -/
theorem c3_reload_counterexample :
    waitForRealContent "example.com" scriptedStates = (some 2, 0) ∧
    (waitForRealContent "example.com" scriptedStates).2 ≠ 1 := by
  refine ⟨rfl, by decide⟩

/-- C3 amended: the loop performs at most one reload for every hostname
and every observed state sequence; on the scripted sequence it returns
success only at the third sample, with exactly one reload when the
hostname belongs to the inmuebles24 family and zero reloads otherwise. -/
theorem c3_amended_reload_policy :
    (∀ (hostname : String) (states : List PageState),
        (waitForRealContent hostname states).2 ≤ 1) ∧
    waitForRealContent "www.inmuebles24.com" scriptedStates = (some 2, 1) ∧
    waitForRealContent "example.com" scriptedStates = (some 2, 0) := by
  refine ⟨?_, rfl, rfl⟩
  intro hostname states
  have h := waitLoop_reload_bound (isI24Host hostname) states false 0 0
  simpa [waitForRealContent] using h

/-- C4: once the session is obtained (the launch succeeded), every exit
path of the rendering-transport invocation closes the browser exactly
once, with the close as the final event; a failed launch obtains no
session and closes nothing. -/
theorem c4_session_closed_once :
    (∀ (first second : RunOutcome),
        (fetchWithPuppeteer true first second).2.count SessionEvent.close = 1 ∧
        (fetchWithPuppeteer true first second).2.getLast? = some SessionEvent.close) ∧
    (∀ (first second : RunOutcome),
        (fetchWithPuppeteer false first second).2.count SessionEvent.close = 0) := by
  constructor
  · intro first second
    cases first with
    | ok h => exact ⟨rfl, rfl⟩
    | err m =>
      cases hcd : contextDestroyed m with
      | false =>
        have ht : (fetchWithPuppeteer true (.err m) second).2 =
            [.launch, .navigate, .close] := by
          simp [fetchWithPuppeteer, hcd]
        rw [ht]
        exact ⟨rfl, rfl⟩
      | true =>
        cases second with
        | ok h2 =>
          have ht : (fetchWithPuppeteer true (.err m) (.ok h2)).2 =
              [.launch, .navigate, .navigate, .close] := by
            simp [fetchWithPuppeteer, hcd]
          rw [ht]
          exact ⟨rfl, rfl⟩
        | err m2 =>
          have ht : (fetchWithPuppeteer true (.err m) (.err m2)).2 =
              [.launch, .navigate, .navigate, .close] := by
            simp [fetchWithPuppeteer, hcd]
          rw [ht]
          exact ⟨rfl, rfl⟩
  · intro first second
    rfl
